import Mathlib

/-!
Shallow embedding of `src/datacube/drivers/postgis/_api.py` (the postgis
persistence API of datacube-core).  Rows of the four relations are Lean
structures, the database is explicit state (lists of rows), and each API
method is translated into a pure function on that state together with the
SQL semantics of the statement it builds.  Timestamps are `Nat` (the
`now()` value is passed as an argument where the SQL uses it), UUIDs and
names are opaque `Nat` tokens, and URIs are `List Char`.
-/

set_option autoImplicit false

namespace Datacube

/-- Metadata documents are opaque payloads for every operation modelled
here (only field extraction looks inside them, and that is abstract). -/
abbrev Doc := Nat

/-- Row of the `dataset` table (`_schema.Dataset`): id, product_ref,
metadata_type_ref, metadata document, added/added_by audit columns and the
nullable `archived` timestamp (`archived IS NULL` means active). -/
structure DatasetRow where
  id : Nat
  product_ref : Nat
  metadata_type_ref : Option Nat
  metadata : Doc
  added : Nat
  added_by : Nat
  archived : Option Nat
  deriving DecidableEq, Repr

/-- Row of the `dataset_location` table: surrogate id, dataset_ref and the
split URI `(uri_scheme, uri_body)`, plus `added` and nullable `archived`. -/
structure DatasetLocationRow where
  id : Nat
  dataset_ref : Nat
  uri_scheme : List Char
  uri_body : List Char
  added : Nat
  archived : Option Nat
  deriving DecidableEq, Repr

/-- The `definition` document of a product; `update_product` reads its
`metadata` section (`definition['metadata']`), the rest is opaque. -/
structure Definition where
  metadata : Doc
  rest : Doc
  deriving DecidableEq, Repr

/-- Row of the `product` table. -/
structure ProductRow where
  id : Nat
  name : Nat
  metadata_type_ref : Nat
  metadata : Doc
  defn : Definition
  deriving DecidableEq, Repr

/-- Row of the `metadata_type` table. -/
structure MetadataTypeRow where
  id : Nat
  name : Nat
  deriving DecidableEq, Repr

/-- Row of the `dataset_source` lineage table. -/
structure DatasetSourceRow where
  classifier : Nat
  dataset_ref : Nat
  source_dataset_ref : Nat
  deriving DecidableEq, Repr

/-- The database state the API mutates and queries. -/
structure DB where
  datasets : List DatasetRow
  locations : List DatasetLocationRow
  products : List ProductRow
  metadata_types : List MetadataTypeRow
  sources : List DatasetSourceRow
  deriving DecidableEq, Repr

/-- Python exceptions raised by the code under `src`: `assert` statements
in `search_datasets_query`, `NotImplementedError` in
`search_unique_datasets_query`, `ValueError` in `_split_uri`,
`RuntimeError` in `update_product`, and the `TypeError` from subscripting
`None` when an update matched no row (`res.first()[0]`). -/
inductive PgError where
  | assertionFailed
  | notImplementedErr
  | valueError
  | runtimeError
  | typeError
  deriving DecidableEq, Repr

/-- The ORM relations that can appear in a query's join list; mirrors the
table classes imported from `._schema`. -/
inductive Rel where
  | datasetLocation
  | dataset
  | product
  | metadataType
  deriving DecidableEq, Repr

/-- One row of a joined query result: the anchor `dataset` row plus the
row contributed by each relation that was brought into the FROM list
(`none` when that relation is not part of the query). -/
structure JoinedRow where
  ds : DatasetRow
  loc : Option DatasetLocationRow
  prod : Option ProductRow
  mt : Option MetadataTypeRow
  deriving DecidableEq, Repr

/-- A search field (`PgField` of `._fields`): the parts of it this API
reads are its `name` and its `required_alchemy_table`. -/
structure PgField where
  name : Nat
  required_alchemy_table : Rel
  deriving DecidableEq, Repr

/-- Modelled from the spec: a compiled search expression ("a field plus
operator plus value, compiled into a relational filter condition", §4.1 of
the spec).  The compiler `._fields` is not under `src`, so the compiled
`alchemy_expression` is abstracted as a boolean predicate `pred` over a
joined row; an `OrExpression` arrives as the disjunction of its members'
predicates, which is exactly what `_alchemify_expressions` produces. -/
structure PgExpression where
  field : PgField
  pred : JoinedRow → Bool

/-- Relation holding the column(s) an expression constrains
(`expression.field.required_alchemy_table`). -/
def requiredRel (e : PgExpression) : Rel :=
  e.field.required_alchemy_table

/-- `_alchemify_expressions`: the list of raw filter conditions.  (The
recursion over `OrExpression` happens inside `pred`, see `PgExpression`.) -/
def _alchemify_expressions (expressions : List PgExpression) : List (JoinedRow → Bool) :=
  expressions.map (·.pred)

/-- The hard-coded join precedence list of `_join_tables`
(`sort_order_hack = [DatasetLocation, Dataset, Product, MetadataType]`). -/
def sort_order_hack : List Rel :=
  [Rel.datasetLocation, Rel.dataset, Rel.product, Rel.metadataType]

/-- `PostgisDbAPI._join_tables`: union the `required_alchemy_table` of
every expression and every field, discard the source (anchor) table, and
emit the remainder in the order of `sort_order_hack`. -/
def _join_tables (source_table : Rel) (expressions : List PgExpression)
    (fields : List PgField) : List Rel :=
  sort_order_hack.filter fun r =>
    decide (r ≠ source_table) &&
      (expressions.any (fun e => decide (requiredRel e = r)) ||
        fields.any (fun f => decide (f.required_alchemy_table = r)))

/-- The anchor rows a dataset query starts from: one joined row per row of
the `dataset` table. -/
def baseRows (db : DB) : List JoinedRow :=
  db.datasets.map fun d => { ds := d, loc := none, prod := none, mt := none }

/-- Modelled from the spec: SQL semantics of one explicit `query.join`.
The ON conditions come from the ORM relationship declarations of
`._schema` (not under `src`); §3 of the spec gives the foreign keys:
`DatasetLocation.dataset_ref → Dataset.id`,
`Dataset.product_ref → Product.id`,
`Dataset.metadata_type_ref → MetadataType.id`. -/
def join1 (db : DB) (r : Rel) (jr : JoinedRow) : List JoinedRow :=
  match r with
  | Rel.datasetLocation =>
      (db.locations.filter fun l => decide (l.dataset_ref = jr.ds.id)).map
        fun l => { jr with loc := some l }
  | Rel.dataset => [jr]
  | Rel.product =>
      (db.products.filter fun p => decide (p.id = jr.ds.product_ref)).map
        fun p => { jr with prod := some p }
  | Rel.metadataType =>
      (db.metadata_types.filter fun m => decide (jr.ds.metadata_type_ref = some m.id)).map
        fun m => { jr with mt := some m }

/-- Apply a list of joins in order, inner-join semantics. -/
def applyJoins (db : DB) (joins : List Rel) (rows : List JoinedRow) : List JoinedRow :=
  joins.foldl (fun rs r => rs.flatMap (join1 db r)) rows

/-- The WHERE clause every dataset search/count builds:
`and_(Dataset.archived == None, *raw_expressions)`. -/
def whereFilter (preds : List (JoinedRow → Bool)) (jr : JoinedRow) : Bool :=
  jr.ds.archived.isNone && preds.all fun p => p jr

/-- The SELECT statement `search_datasets_query` assembles: projection
choice, explicit joins, raw filter conditions and optional limit. -/
structure SelectQuery where
  select_fields : Option (List PgField)
  joins : List Rel
  preds : List (JoinedRow → Bool)
  limit : Option Nat

/-- `search_datasets_query`: asserts that the lineage arguments are
unused, then assembles the query (joins from `_join_tables` over the
expressions and any select fields, WHERE from `whereFilter`). -/
def search_datasets_query (expressions : List PgExpression)
    (source_exprs : Option (List PgExpression)) (select_fields : Option (List PgField))
    (with_source_ids : Bool) (limit : Option Nat) : Except PgError SelectQuery :=
  if source_exprs.isSome then Except.error PgError.assertionFailed
  else if with_source_ids then Except.error PgError.assertionFailed
  else Except.ok
    { select_fields := select_fields
      joins := _join_tables Rel.dataset expressions (select_fields.getD [])
      preds := _alchemify_expressions expressions
      limit := limit }

/-- SQL semantics of executing an assembled dataset query: join, filter,
limit.  (The projection does not affect which rows are returned, so rows
are returned whole.) -/
def runQuery (db : DB) (q : SelectQuery) : List JoinedRow :=
  let rows := (applyJoins db q.joins (baseRows db)).filter (whereFilter q.preds)
  match q.limit with
  | none => rows
  | some n => rows.take n

/-- `search_datasets`: build the query, then execute it.  A failed assert
in the builder propagates before anything executes. -/
def search_datasets (db : DB) (expressions : List PgExpression)
    (source_exprs : Option (List PgExpression)) (select_fields : Option (List PgField))
    (with_source_ids : Bool) (limit : Option Nat) : Except PgError (List JoinedRow) :=
  (search_datasets_query expressions source_exprs select_fields with_source_ids limit).map
    (runQuery db)

/-- Number of rows a default search (no select fields, no limit, no
lineage arguments) returns; used to state the count/search comparison. -/
def search_row_count (db : DB) (expressions : List PgExpression) : Nat :=
  match search_datasets db expressions none none false none with
  | Except.ok rows => rows.length
  | Except.error _ => 0

/-- Modelled from the spec: SQL semantics of a relation entering the FROM
list with no join condition.  `count_datasets` never calls `.join`, so
SQLAlchemy adds every relation referenced by a WHERE condition to the FROM
list as a plain cartesian product. -/
def crossJoin1 (db : DB) (r : Rel) (jr : JoinedRow) : List JoinedRow :=
  match r with
  | Rel.datasetLocation => db.locations.map fun l => { jr with loc := some l }
  | Rel.dataset => [jr]
  | Rel.product => db.products.map fun p => { jr with prod := some p }
  | Rel.metadataType => db.metadata_types.map fun m => { jr with mt := some m }

/-- The non-anchor relations whose columns appear in the WHERE clause of
`count_datasets` (and therefore enter its FROM list implicitly). -/
def countFroms (expressions : List PgExpression) : List Rel :=
  [Rel.datasetLocation, Rel.product, Rel.metadataType].filter fun r =>
    expressions.any fun e => decide (requiredRel e = r)

/-- `count_datasets`: `select(func.count(Dataset.id)).where(archived IS
NULL).where(*raw_expressions)` — the same filter as search but with no
explicit join construction. -/
def count_datasets (db : DB) (expressions : List PgExpression) : Nat :=
  let rows := (countFroms expressions).foldl
    (fun rs r => rs.flatMap (crossJoin1 db r)) (baseRows db)
  (rows.filter (whereFilter (_alchemify_expressions expressions))).length

/-- `generate_series(start, stop, step)` over timestamps: all values
`start, start + step, ...` that are at most `stop`.  (Postgres rejects a
zero step; the model returns the empty list there and every theorem below
assumes a positive period.) -/
def generate_series (start stop step : Nat) : List Nat :=
  if step = 0 then []
  else if stop < start then []
  else (List.range ((stop - start) / step + 1)).map fun i => start + i * step

/-- The time buckets `count_datasets_through_time_query` builds:
`tstzrange(t, lead(t) over ())` over the generated series, with the
trailing open-ended row removed by the `NOT upper_inf` filter — i.e. each
generated start time paired with its successor. -/
def time_buckets (start stop step : Nat) : List (Nat × Nat) :=
  let pts := generate_series start stop step
  pts.zip pts.tail

/-- Postgres range `&&` on half-open `[lower, upper)` ranges: both
nonempty and each lower bound below the other's upper bound. -/
def rangeOverlap (a b : Nat × Nat) : Bool :=
  decide (a.1 < a.2) && decide (b.1 < b.2) && decide (a.1 < b.2) && decide (b.1 < a.2)

/-- `count_datasets_through_time` / `count_datasets_through_time_query`:
for each bucket, the correlated scalar count of joined rows (joins from
`_join_tables` over the expressions) whose time field overlaps the bucket
and which pass the `archived IS NULL` and expression filter; the result is
the list of `(bucket range, count)` pairs.  The dataset's time-valued
field is abstracted as a half-open range `time_field` of each row. -/
def count_datasets_through_time (db : DB) (start stop period : Nat)
    (time_field : DatasetRow → Nat × Nat) (expressions : List PgExpression) :
    List ((Nat × Nat) × Nat) :=
  (time_buckets start stop period).map fun bk =>
    (bk,
      ((applyJoins db (_join_tables Rel.dataset expressions []) (baseRows db)).filter
        fun jr => rangeOverlap (time_field jr.ds) bk &&
          whereFilter (_alchemify_expressions expressions) jr).length)

/-- Modelled from the spec: the §8 cross-check, a "direct
`count(filter ∧ field-in-bucket)` query" — the number of rows, joined per
§4.2 for the given expressions, that pass the archived-IS-NULL/expression
filter and whose time field overlaps the half-open bucket `[lo, hi)`. -/
def directBucketCount (db : DB) (time_field : DatasetRow → Nat × Nat)
    (expressions : List PgExpression) (lo hi : Nat) : Nat :=
  ((applyJoins db (_join_tables Rel.dataset expressions []) (baseRows db)).filter
    fun jr => whereFilter (_alchemify_expressions expressions) jr &&
      rangeOverlap (time_field jr.ds) (lo, hi)).length

/-- `search_unique_datasets_query`: declared but unimplemented, its body
is `raise NotImplementedError()`. -/
def search_unique_datasets_query (_expressions : List PgExpression)
    (_select_fields : Option (List PgField)) (_limit : Option Nat) :
    Except PgError SelectQuery :=
  Except.error PgError.notImplementedErr

/-- `search_unique_datasets`: builds the (unimplemented) query and then
would execute it; the `NotImplementedError` propagates before any
execution. -/
def search_unique_datasets (db : DB) (expressions : List PgExpression)
    (select_fields : Option (List PgField)) (limit : Option Nat) :
    Except PgError (List JoinedRow) :=
  (search_unique_datasets_query expressions select_fields limit).map (runQuery db)

/-- `_split_uri`: split at the first `:` (`uri.find(':')`); a URI with no
`:` raises `ValueError("Not a URI")`. -/
def _split_uri : List Char → Except PgError (List Char × List Char)
  | [] => Except.error PgError.valueError
  | c :: rest =>
      if c = ':' then Except.ok ([], rest)
      else (_split_uri rest).map fun sb => (c :: sb.1, sb.2)

/-- The composite key every location mutation filters on:
`(dataset_ref, uri_scheme, uri_body)`. -/
def locKeyMatch (dataset_id : Nat) (scheme body : List Char)
    (l : DatasetLocationRow) : Bool :=
  decide (l.dataset_ref = dataset_id ∧ l.uri_scheme = scheme ∧ l.uri_body = body)

/-- `insert_dataset_location`: split the URI, then
`INSERT ... ON CONFLICT (uri_scheme, uri_body, dataset_ref) DO NOTHING`;
returns whether a row was inserted.  `new_id` and `now` stand for the
surrogate-key and `added` column defaults the database fills in. -/
def insert_dataset_location (db : DB) (dataset_id : Nat) (uri : List Char)
    (new_id now : Nat) : Except PgError (Bool × DB) :=
  (_split_uri uri).map fun sb =>
    if db.locations.any (locKeyMatch dataset_id sb.1 sb.2) then (false, db)
    else (true,
      { db with locations := db.locations ++
          [{ id := new_id, dataset_ref := dataset_id, uri_scheme := sb.1,
             uri_body := sb.2, added := now, archived := none }] })

/-- `remove_location`: split the URI, then delete the rows matching the
composite key; returns whether any row was deleted. -/
def remove_location (db : DB) (dataset_id : Nat) (uri : List Char) :
    Except PgError (Bool × DB) :=
  (_split_uri uri).map fun sb =>
    (db.locations.any (locKeyMatch dataset_id sb.1 sb.2),
      { db with locations :=
          db.locations.filter fun l => !locKeyMatch dataset_id sb.1 sb.2 l })

/-- `archive_location`: split the URI, then set `archived = now()` on rows
matching the composite key that are currently active; returns whether any
row transitioned. -/
def archive_location (db : DB) (dataset_id : Nat) (uri : List Char) (now : Nat) :
    Except PgError (Bool × DB) :=
  (_split_uri uri).map fun sb =>
    let hit := fun l => locKeyMatch dataset_id sb.1 sb.2 l && l.archived.isNone
    (db.locations.any hit,
      { db with locations := db.locations.map fun l =>
          if hit l then { l with archived := some now } else l })

/-- `restore_location`: split the URI, then clear `archived` on rows
matching the composite key that are currently archived; returns whether
any row was restored. -/
def restore_location (db : DB) (dataset_id : Nat) (uri : List Char) :
    Except PgError (Bool × DB) :=
  (_split_uri uri).map fun sb =>
    let hit := fun l => locKeyMatch dataset_id sb.1 sb.2 l && l.archived.isSome
    (db.locations.any hit,
      { db with locations := db.locations.map fun l =>
          if hit l then { l with archived := none } else l })

/-- `insert_dataset`: `INSERT ... ON CONFLICT (id) DO NOTHING` with
`metadata_type_ref` taken from a scalar subquery over the product;
returns whether the row was inserted.  `now` and `user` stand for the
`added`/`added_by` column defaults. -/
def insert_dataset (db : DB) (metadata_doc : Doc) (dataset_id product_id : Nat)
    (now user : Nat) : Bool × DB :=
  if db.datasets.any (fun r => decide (r.id = dataset_id)) then (false, db)
  else (true,
    { db with datasets := db.datasets ++
        [{ id := dataset_id, product_ref := product_id,
           metadata_type_ref :=
             ((db.products.filter fun p => decide (p.id = product_id)).head?).map
               (·.metadata_type_ref),
           metadata := metadata_doc, added := now, added_by := user,
           archived := none }] })

/-- `contains_dataset`: whether `SELECT id FROM dataset WHERE id = ?`
fetches a row. -/
def contains_dataset (db : DB) (dataset_id : Nat) : Bool :=
  db.datasets.any fun r => decide (r.id = dataset_id)

/-- `update_dataset`: set the metadata document on rows matching both the
dataset id and the product id; returns whether any row matched. -/
def update_dataset (db : DB) (metadata_doc : Doc) (dataset_id product_id : Nat) :
    Bool × DB :=
  let hit := fun (r : DatasetRow) => decide (r.id = dataset_id ∧ r.product_ref = product_id)
  (db.datasets.any hit,
    { db with datasets := db.datasets.map fun r =>
        if hit r then { r with metadata := metadata_doc } else r })

/-- `archive_dataset`: set `archived = now()` on rows with the given id
that are currently active (`archived IS NULL`); returns whether any row
transitioned. -/
def archive_dataset (db : DB) (dataset_id : Nat) (now : Nat) : Bool × DB :=
  let hit := fun (r : DatasetRow) => decide (r.id = dataset_id) && r.archived.isNone
  (db.datasets.any hit,
    { db with datasets := db.datasets.map fun r =>
        if hit r then { r with archived := some now } else r })

/-- `restore_dataset`: clear `archived` on rows with the given id,
unconditionally; returns whether a row existed. -/
def restore_dataset (db : DB) (dataset_id : Nat) : Bool × DB :=
  let hit := fun (r : DatasetRow) => decide (r.id = dataset_id)
  (db.datasets.any hit,
    { db with datasets := db.datasets.map fun r =>
        if hit r then { r with archived := none } else r })

/-- The Python exception classes `_get_active_field_names` catches when a
field's `extract` fails on a missing or malformed offset. -/
inductive FieldErr where
  | attributeErr
  | keyErr
  | valueErr
  deriving DecidableEq, Repr

/-- A field as seen by the dynamic-field maintenance code: its name,
whether it has an `extract` capability (`hasattr(field, 'extract')`), and
the extraction itself — returning a value, `None`, or raising one of the
caught exceptions.  The concrete field classes live in `._fields` (not
under `src`), so `extract` is abstract here. -/
structure DynField where
  name : Nat
  hasExtract : Bool
  extract : Doc → Except FieldErr (Option Nat)

/-- `_get_active_field_names`: the names of the fields that have an
`extract` capability and whose extraction on the document yields a
non-`None` value; extraction failures are skipped (`continue`). -/
def _get_active_field_names (fields : List DynField) (metadata_doc : Doc) : List Nat :=
  fields.filterMap fun f =>
    if f.hasExtract then
      match f.extract metadata_doc with
      | Except.ok (some _) => some f.name
      | Except.ok none => none
      | Except.error _ => none
    else none

/-- The call `_setup_product_fields` hands to
`dynamic.check_dynamic_fields` (the external index/view builder). -/
structure BuilderCall where
  product_id : Nat
  product_name : Nat
  dataset_filter : DatasetRow → Bool
  field_names : List Nat
  concurrently : Bool
  rebuild_indexes : Bool
  rebuild_view : Bool

/-- `_setup_product_fields`: build the archived-exclusion filter and the
active field names and hand them to the index/view builder. -/
def _setup_product_fields (id_ name : Nat) (fields : List DynField)
    (metadata_doc : Doc) (rebuild_indexes rebuild_view concurrently : Bool) :
    BuilderCall :=
  { product_id := id_
    product_name := name
    dataset_filter := fun d => d.archived.isNone && decide (d.product_ref = id_)
    field_names := _get_active_field_names fields metadata_doc
    concurrently := concurrently
    rebuild_indexes := rebuild_indexes
    rebuild_view := rebuild_view }

/-- The connection the API wraps: the database plus whether an ambient
transaction is active (`self._connection.in_transaction()`). -/
structure ConnState where
  db : DB
  in_transaction : Bool

/-- `update_product`: update the product row matching the name (returning
its id; a missing row makes `res.first()[0]` fail with `TypeError`); when
`update_metadata_type` is requested, demand an ambient transaction
(`RuntimeError` otherwise) and re-point every dataset of the product to
the new metadata type; finally hand the recomputed field set to the
builder with `rebuild_view=True`.  The result pairs the outcome with the
database state the connection is left with. -/
def update_product (st : ConnState) (name : Nat) (metadata : Doc)
    (metadata_type_id : Nat) (fields : List DynField) (defn : Definition)
    (update_metadata_type concurrently : Bool) :
    Except PgError (Nat × BuilderCall) × DB :=
  let db1 : DB :=
    { st.db with products := st.db.products.map fun p =>
        if decide (p.name = name) then
          { p with metadata := metadata, metadata_type_ref := metadata_type_id,
                   defn := defn }
        else p }
  match (st.db.products.filter fun p => decide (p.name = name)).head? with
  | none => (Except.error PgError.typeError, db1)
  | some p =>
      if update_metadata_type ∧ ¬st.in_transaction then
        (Except.error PgError.runtimeError, db1)
      else
        let db2 : DB :=
          if update_metadata_type then
            { db1 with datasets := db1.datasets.map fun d =>
                if decide (d.product_ref = p.id) then
                  { d with metadata_type_ref := some metadata_type_id }
                else d }
          else db1
        (Except.ok (p.id,
          _setup_product_fields p.id name fields defn.metadata false true concurrently),
          db2)

/-- The empty database, used to instantiate witnesses. -/
def emptyDB : DB :=
  { datasets := [], locations := [], products := [], metadata_types := [], sources := [] }

/-- C2: calling `search_datasets` or `search_datasets_query` with
`source_exprs` not `None` or with `with_source_ids` true, and calling
`search_unique_datasets` with any arguments, fails immediately with the
explicit unsupported-operation signal declared in the code (the lineage
precondition asserts, resp. `NotImplementedError`) before any query is
executed; the lineage arguments are never silently ignored and the
unique-dataset variant never falls back to the row-multiplying search. -/
theorem c2_unsupported_ops_fail_fast (db : DB) (expressions : List PgExpression)
    (source_exprs : Option (List PgExpression)) (select_fields : Option (List PgField))
    (with_source_ids : Bool) (limit : Option Nat) :
    (source_exprs.isSome = true ∨ with_source_ids = true →
      search_datasets_query expressions source_exprs select_fields with_source_ids limit =
        Except.error PgError.assertionFailed ∧
      search_datasets db expressions source_exprs select_fields with_source_ids limit =
        Except.error PgError.assertionFailed) ∧
    search_unique_datasets_query expressions select_fields limit =
      Except.error PgError.notImplementedErr ∧
    search_unique_datasets db expressions select_fields limit =
      Except.error PgError.notImplementedErr := by
  refine ⟨?_, rfl, rfl⟩
  rintro (h | h)
  · simp [search_datasets_query, search_datasets, h, Except.map]
  · by_cases hs : source_exprs.isSome <;>
      simp [search_datasets_query, search_datasets, h, hs, Except.map]

/-- C2 witness: the failure modes at concrete arguments. -/
theorem c2_unsupported_ops_fail_fast_witness :
    search_datasets_query [] (some []) none true none =
      Except.error PgError.assertionFailed ∧
    search_datasets emptyDB [] (some []) none true none =
      Except.error PgError.assertionFailed :=
  (c2_unsupported_ops_fail_fast emptyDB [] (some []) none true none).1 (Or.inr rfl)

/-- C4: the field set handed to the index/view builder is exactly the set
of names of fields that have an extract capability and whose extraction on
the representative document returns a non-absent value; a failing
extraction is treated as absence, never as a propagating error. -/
theorem c4_active_field_names (id_ name : Nat) (fields : List DynField) (doc : Doc)
    (ri rv conc : Bool) :
    (_setup_product_fields id_ name fields doc ri rv conc).field_names =
      _get_active_field_names fields doc ∧
    (∀ n, n ∈ _get_active_field_names fields doc ↔
      ∃ f ∈ fields, f.name = n ∧ f.hasExtract = true ∧
        ∃ v, f.extract doc = Except.ok (some v)) := by
  refine ⟨rfl, fun n => ?_⟩
  simp only [_get_active_field_names, List.mem_filterMap]
  constructor
  · rintro ⟨f, hf, heq⟩
    by_cases hx : f.hasExtract
    · refine ⟨f, hf, ?_⟩
      simp only [hx, if_true] at heq
      cases hex : f.extract doc with
      | ok ov =>
          cases ov with
          | some v =>
              rw [hex] at heq
              exact ⟨by exact Option.some.inj heq, hx, v, rfl⟩
          | none => rw [hex] at heq; cases heq
      | error e => rw [hex] at heq; cases heq
    · simp [hx] at heq
  · rintro ⟨f, hf, hname, hx, v, hex⟩
    exact ⟨f, hf, by simp [hx, hex, hname]⟩

/-- C4 witness: one field extracting a value, one extracting `None`, one
raising `KeyError`, one without extract capability — only the first name
is active and is what the builder receives. -/
theorem c4_active_field_names_witness :
    (_setup_product_fields 9 3
      [{ name := 1, hasExtract := true, extract := fun _ => Except.ok (some 7) },
       { name := 2, hasExtract := true, extract := fun _ => Except.ok none },
       { name := 3, hasExtract := true, extract := fun _ => Except.error FieldErr.keyErr },
       { name := 4, hasExtract := false, extract := fun _ => Except.ok (some 7) }]
      0 false true true).field_names = [1] ∧ (1 : Nat) ∈ _get_active_field_names
      [{ name := 1, hasExtract := true, extract := fun _ => Except.ok (some 7) },
       { name := 2, hasExtract := true, extract := fun _ => Except.ok none },
       { name := 3, hasExtract := true, extract := fun _ => Except.error FieldErr.keyErr },
       { name := 4, hasExtract := false, extract := fun _ => Except.ok (some 7) }] 0 :=
  ⟨rfl, ((c4_active_field_names 9 3 _ 0 false true true).2 1).2
    ⟨{ name := 1, hasExtract := true, extract := fun _ => Except.ok (some 7) },
      by simp, rfl, rfl, 7, rfl⟩⟩

/-- C6: inserting the same dataset id twice inserts and returns true the
first time, and is a silent no-op returning false the second time (the
conflict is absorbed into the boolean, never raised); `contains_dataset`
is true after the first call. -/
theorem c6_insert_dataset_idempotent (db : DB) (doc : Doc) (dataset_id product_id now user : Nat)
    (h : ∀ r ∈ db.datasets, r.id ≠ dataset_id) :
    (insert_dataset db doc dataset_id product_id now user).1 = true ∧
    contains_dataset (insert_dataset db doc dataset_id product_id now user).2 dataset_id = true ∧
    (∀ doc2 product_id2 now2 user2,
      insert_dataset (insert_dataset db doc dataset_id product_id now user).2
          doc2 dataset_id product_id2 now2 user2 =
        (false, (insert_dataset db doc dataset_id product_id now user).2)) := by
  have hany : (db.datasets.any fun r => decide (r.id = dataset_id)) = false := by
    simp only [List.any_eq_false, decide_eq_true_eq]
    exact h
  refine ⟨by simp [insert_dataset, hany], ?_, ?_⟩
  · simp [insert_dataset, contains_dataset, hany, List.any_append]
  · intro doc2 product_id2 now2 user2
    simp [insert_dataset, hany, List.any_append]

/-- C6 witness: inserting id 5 into the empty database. -/
theorem c6_insert_dataset_idempotent_witness :
    (insert_dataset emptyDB 0 5 1 0 0).1 = true ∧
    contains_dataset (insert_dataset emptyDB 0 5 1 0 0).2 5 = true ∧
    insert_dataset (insert_dataset emptyDB 0 5 1 0 0).2 9 5 2 1 1 =
      (false, (insert_dataset emptyDB 0 5 1 0 0).2) := by
  have h := c6_insert_dataset_idempotent emptyDB 0 5 1 0 0 (by simp [emptyDB])
  exact ⟨h.1, h.2.1, h.2.2 9 2 1 1⟩

/-- C10: `update_dataset` replaces the metadata document only of rows
matching both the dataset id and the product id, returns true exactly when
such a row exists, and when the dataset id exists under a different
product it returns false and modifies nothing. -/
theorem c10_update_dataset_keyed_on_both (db : DB) (doc : Doc) (dataset_id product_id : Nat) :
    ((update_dataset db doc dataset_id product_id).1 = true ↔
      ∃ r ∈ db.datasets, r.id = dataset_id ∧ r.product_ref = product_id) ∧
    ((update_dataset db doc dataset_id product_id).2.datasets =
      db.datasets.map fun r =>
        if r.id = dataset_id ∧ r.product_ref = product_id then
          { r with metadata := doc } else r) ∧
    ((∀ r ∈ db.datasets, r.id = dataset_id → r.product_ref ≠ product_id) →
      update_dataset db doc dataset_id product_id = (false, db)) := by
  refine ⟨?_, ?_, ?_⟩
  · simp [update_dataset, List.any_eq_true]
  · simp [update_dataset]
  · intro h
    have hany : (db.datasets.any fun r =>
        decide (r.id = dataset_id ∧ r.product_ref = product_id)) = false := by
      simp only [List.any_eq_false, decide_eq_true_eq]
      rintro r hr ⟨h1, h2⟩
      exact h r hr h1 h2
    have hmap : (db.datasets.map fun r =>
        if decide (r.id = dataset_id ∧ r.product_ref = product_id) = true then
          { r with metadata := doc } else r) = db.datasets := by
      refine (List.map_congr_left ?_).trans (List.map_id db.datasets)
      intro r hr
      have hne : ¬(r.id = dataset_id ∧ r.product_ref = product_id) := by
        rintro ⟨h1, h2⟩
        exact h r hr h1 h2
      simp [hne]
    simp only [update_dataset, hany]
    rw [Prod.mk.injEq]
    exact ⟨rfl, by rw [hmap]⟩

/-- C10 witness: a dataset with id 5 under product 1; updating it under
product 2 returns false and leaves the database unchanged. -/
theorem c10_update_dataset_keyed_on_both_witness :
    update_dataset
      { emptyDB with datasets :=
          [{ id := 5, product_ref := 1, metadata_type_ref := some 1, metadata := 0,
             added := 0, added_by := 0, archived := none }] } 9 5 2 =
      (false,
        { emptyDB with datasets :=
            [{ id := 5, product_ref := 1, metadata_type_ref := some 1, metadata := 0,
               added := 0, added_by := 0, archived := none }] }) :=
  (c10_update_dataset_keyed_on_both _ 9 5 2).2.2 (by simp)

/-- C5: archiving sets the timestamp only on a currently active row and
reports whether a transition occurred, so archive/archive on an active
dataset returns true then false, and restore followed by archive returns
true again. -/
theorem c5_archive_restore_transitions (db : DB) (dataset_id t1 t2 t3 : Nat)
    (h : ∃ r ∈ db.datasets, r.id = dataset_id ∧ r.archived = none) :
    (archive_dataset db dataset_id t1).1 = true ∧
    (archive_dataset (archive_dataset db dataset_id t1).2 dataset_id t2).1 = false ∧
    (restore_dataset (archive_dataset db dataset_id t1).2 dataset_id).1 = true ∧
    (archive_dataset
      (restore_dataset (archive_dataset db dataset_id t1).2 dataset_id).2
      dataset_id t3).1 = true := by
  obtain ⟨r, hr, hid, harch⟩ := h
  refine ⟨?_, ?_, ?_, ?_⟩
  · simp only [archive_dataset, List.any_eq_true, Bool.and_eq_true, decide_eq_true_eq,
      Option.isNone_iff_eq_none]
    exact ⟨r, hr, hid, harch⟩
  · simp only [archive_dataset, List.any_eq_false, List.mem_map, Bool.and_eq_true,
      decide_eq_true_eq, Option.isNone_iff_eq_none, not_and]
    rintro x ⟨y, hy, rfl⟩
    split
    · intro _ h2
      simp at h2
    · next hc =>
        intro h1 h2
        exact hc ⟨h1, h2⟩
  · simp only [restore_dataset, archive_dataset, List.any_eq_true, List.mem_map,
      decide_eq_true_eq]
    refine ⟨_, ⟨r, hr, rfl⟩, ?_⟩
    simp [hid, harch]
  · simp only [archive_dataset, restore_dataset, List.any_eq_true, List.mem_map,
      Bool.and_eq_true, decide_eq_true_eq, Option.isNone_iff_eq_none]
    refine ⟨_, ⟨_, ⟨r, hr, rfl⟩, rfl⟩, ?_⟩
    simp [hid, harch]

/-- C5 witness: the archive/archive/restore/archive sequence on a
one-dataset database. -/
theorem c5_archive_restore_transitions_witness :
    ((archive_dataset
      { emptyDB with datasets :=
          [{ id := 5, product_ref := 1, metadata_type_ref := some 1, metadata := 0,
             added := 0, added_by := 0, archived := none }] } 5 10).1 = true ∧
    (archive_dataset (archive_dataset
      { emptyDB with datasets :=
          [{ id := 5, product_ref := 1, metadata_type_ref := some 1, metadata := 0,
             added := 0, added_by := 0, archived := none }] } 5 10).2 5 11).1 = false ∧
    (restore_dataset (archive_dataset
      { emptyDB with datasets :=
          [{ id := 5, product_ref := 1, metadata_type_ref := some 1, metadata := 0,
             added := 0, added_by := 0, archived := none }] } 5 10).2 5).1 = true ∧
    (archive_dataset (restore_dataset (archive_dataset
      { emptyDB with datasets :=
          [{ id := 5, product_ref := 1, metadata_type_ref := some 1, metadata := 0,
             added := 0, added_by := 0, archived := none }] } 5 10).2 5).2 5 12).1 = true) :=
  c5_archive_restore_transitions _ 5 10 11 12
    ⟨{ id := 5, product_ref := 1, metadata_type_ref := some 1, metadata := 0,
       added := 0, added_by := 0, archived := none }, by simp, rfl, rfl⟩

/-- A relation is required by the supplied expressions or fields when some
expression or field declares it as its `required_alchemy_table`. -/
def requiredBy (r : Rel) (expressions : List PgExpression) (fields : List PgField) : Prop :=
  (∃ e ∈ expressions, requiredRel e = r) ∨
    (∃ f ∈ fields, f.required_alchemy_table = r)

/-- C8: `_join_tables` returns exactly the relations required by the
expressions and fields, deduplicated, with the anchor relation removed,
listed in the fixed precedence order `DatasetLocation, Dataset, Product,
MetadataType`; the output depends only on which relations are required,
not on how the inputs are ordered, and never contains an unrequired
relation. -/
theorem c8_join_tables_minimal_ordered (source : Rel) (expressions : List PgExpression)
    (fields : List PgField) :
    (∀ r, r ∈ _join_tables source expressions fields ↔
      r ≠ source ∧ requiredBy r expressions fields) ∧
    (_join_tables source expressions fields).Nodup ∧
    List.Sublist (_join_tables source expressions fields) sort_order_hack ∧
    (∀ expressions2 fields2,
      (∀ r, requiredBy r expressions fields ↔ requiredBy r expressions2 fields2) →
      _join_tables source expressions fields = _join_tables source expressions2 fields2) := by
  refine ⟨?_, ?_, ?_, ?_⟩
  · intro r
    have hmem : r ∈ sort_order_hack := by cases r <;> simp [sort_order_hack]
    simp [_join_tables, List.mem_filter, hmem, requiredBy, List.any_eq_true]
  · exact (by decide : sort_order_hack.Nodup).filter _
  · exact List.filter_sublist sort_order_hack
  · intro expressions2 fields2 hiff
    apply List.filter_congr
    intro r _
    have beq : ∀ a b : Bool, (a = true ↔ b = true) → a = b := by
      intro a b hab
      cases a <;> cases b <;> simp_all
    have h1 : ((expressions.any fun e => decide (requiredRel e = r)) ||
        (fields.any fun f => decide (f.required_alchemy_table = r))) =
        ((expressions2.any fun e => decide (requiredRel e = r)) ||
          (fields2.any fun f => decide (f.required_alchemy_table = r))) := by
      apply beq
      have := hiff r
      simp only [requiredBy] at this
      simp only [List.any_eq_true, Bool.or_eq_true, decide_eq_true_eq]
      exact this
    rw [h1]

/-- C8 witness: two expressions on `Product` and `MetadataType` given in
either order, plus a field on `DatasetLocation`, with anchor `Dataset`:
the output is the fixed-order, deduplicated required set either way. -/
theorem c8_join_tables_minimal_ordered_witness :
    _join_tables Rel.dataset
      [{ field := { name := 1, required_alchemy_table := Rel.metadataType },
         pred := fun _ => true },
       { field := { name := 2, required_alchemy_table := Rel.product },
         pred := fun _ => true }]
      [{ name := 3, required_alchemy_table := Rel.datasetLocation }] =
      [Rel.datasetLocation, Rel.product, Rel.metadataType] ∧
    _join_tables Rel.dataset
      [{ field := { name := 2, required_alchemy_table := Rel.product },
         pred := fun _ => true },
       { field := { name := 1, required_alchemy_table := Rel.metadataType },
         pred := fun _ => true }]
      [{ name := 3, required_alchemy_table := Rel.datasetLocation }] =
      [Rel.datasetLocation, Rel.product, Rel.metadataType] := by
  have hdet := (c8_join_tables_minimal_ordered Rel.dataset
      [{ field := { name := 1, required_alchemy_table := Rel.metadataType },
         pred := fun _ => true },
       { field := { name := 2, required_alchemy_table := Rel.product },
         pred := fun _ => true }]
      [{ name := 3, required_alchemy_table := Rel.datasetLocation }]).2.2.2
      [{ field := { name := 2, required_alchemy_table := Rel.product },
         pred := fun _ => true },
       { field := { name := 1, required_alchemy_table := Rel.metadataType },
         pred := fun _ => true }]
      [{ name := 3, required_alchemy_table := Rel.datasetLocation }]
      (by
        intro r
        constructor
        · rintro (⟨e, he, hre⟩ | ⟨f, hf, hrf⟩)
          · simp only [List.mem_cons, List.not_mem_nil, or_false] at he
            rcases he with he | he <;> subst he <;> exact Or.inl ⟨_, by simp, hre⟩
          · simp only [List.mem_cons, List.not_mem_nil, or_false] at hf
            subst hf
            exact Or.inr ⟨_, by simp, hrf⟩
        · rintro (⟨e, he, hre⟩ | ⟨f, hf, hrf⟩)
          · simp only [List.mem_cons, List.not_mem_nil, or_false] at he
            rcases he with he | he <;> subst he <;> exact Or.inl ⟨_, by simp, hre⟩
          · simp only [List.mem_cons, List.not_mem_nil, or_false] at hf
            subst hf
            exact Or.inr ⟨_, by simp, hrf⟩)
  exact ⟨rfl, hdet ▸ rfl⟩

/-- `_split_uri` on a URI containing no `:` raises `ValueError`. -/
theorem split_uri_no_colon : ∀ uri : List Char, ':' ∉ uri →
    _split_uri uri = Except.error PgError.valueError
  | [], _ => rfl
  | c :: rest, h => by
      have hc : ¬c = ':' := fun hc => h (hc ▸ List.mem_cons_self c rest)
      have hrest : ':' ∉ rest := fun hm => h (List.mem_cons_of_mem c hm)
      simp [_split_uri, hc, split_uri_no_colon rest hrest, Except.map]

/-- `_split_uri` splits at the first `:`: scheme before it, body after. -/
theorem split_uri_colon : ∀ scheme body : List Char, ':' ∉ scheme →
    _split_uri (scheme ++ ':' :: body) = Except.ok (scheme, body)
  | [], body, _ => by simp [_split_uri]
  | c :: rest, body, h => by
      have hc : ¬c = ':' := fun hc => h (hc ▸ List.mem_cons_self c rest)
      have hrest : ':' ∉ rest := fun hm => h (List.mem_cons_of_mem c hm)
      simp [_split_uri, hc, split_uri_colon rest body hrest, Except.map]

/-- C9: every location mutation identifies the location by the composite
`(dataset_ref, uri_scheme, uri_body)` obtained by splitting the URI at its
first `:`; a URI with no `:` makes every mutation fail with `ValueError`
and mutate nothing (no state is produced). -/
theorem c9_location_mutations_keyed_on_split_uri (uri : List Char) :
    (':' ∉ uri →
      _split_uri uri = Except.error PgError.valueError ∧
      (∀ db dataset_id new_id now,
        insert_dataset_location db dataset_id uri new_id now =
          Except.error PgError.valueError) ∧
      (∀ db dataset_id,
        remove_location db dataset_id uri = Except.error PgError.valueError) ∧
      (∀ db dataset_id now,
        archive_location db dataset_id uri now = Except.error PgError.valueError) ∧
      (∀ db dataset_id,
        restore_location db dataset_id uri = Except.error PgError.valueError)) ∧
    (∀ scheme body : List Char, uri = scheme ++ ':' :: body → ':' ∉ scheme →
      _split_uri uri = Except.ok (scheme, body) ∧
      (∀ db dataset_id new_id now,
        insert_dataset_location db dataset_id uri new_id now = Except.ok
          (if db.locations.any (locKeyMatch dataset_id scheme body) then (false, db)
           else (true, { db with locations := db.locations ++
              [{ id := new_id, dataset_ref := dataset_id, uri_scheme := scheme,
                 uri_body := body, added := now, archived := none }] }))) ∧
      (∀ db dataset_id,
        remove_location db dataset_id uri = Except.ok
          (db.locations.any (locKeyMatch dataset_id scheme body),
           { db with locations :=
              db.locations.filter fun l => !locKeyMatch dataset_id scheme body l })) ∧
      (∀ db dataset_id now,
        archive_location db dataset_id uri now = Except.ok
          ((db.locations.any fun l =>
              locKeyMatch dataset_id scheme body l && l.archived.isNone),
           { db with locations := db.locations.map fun l =>
              if locKeyMatch dataset_id scheme body l && l.archived.isNone then
                { l with archived := some now } else l })) ∧
      (∀ db dataset_id,
        restore_location db dataset_id uri = Except.ok
          ((db.locations.any fun l =>
              locKeyMatch dataset_id scheme body l && l.archived.isSome),
           { db with locations := db.locations.map fun l =>
              if locKeyMatch dataset_id scheme body l && l.archived.isSome then
                { l with archived := none } else l }))) := by
  constructor
  · intro hnc
    have hs := split_uri_no_colon uri hnc
    exact ⟨hs,
      fun db did nid now => by simp [insert_dataset_location, hs, Except.map],
      fun db did => by simp [remove_location, hs, Except.map],
      fun db did now => by simp [archive_location, hs, Except.map],
      fun db did => by simp [restore_location, hs, Except.map]⟩
  · intro scheme body huri hnc
    have hs : _split_uri uri = Except.ok (scheme, body) := by
      rw [huri]; exact split_uri_colon scheme body hnc
    exact ⟨hs,
      fun db did nid now => by simp [insert_dataset_location, hs, Except.map],
      fun db did => by simp [remove_location, hs, Except.map],
      fun db did now => by simp [archive_location, hs, Except.map],
      fun db did => by simp [restore_location, hs, Except.map]⟩

/-- C9 witness: the colon-free URI `"path"` makes every mutation fail, and
`"fi:le"` splits into scheme `"fi"` and body `"le"` with the composite-key
behavior on a concrete database row. -/
theorem c9_location_mutations_keyed_on_split_uri_witness :
    remove_location emptyDB 1 ['p', 'a', 't', 'h'] = Except.error PgError.valueError ∧
    archive_location emptyDB 1 ['p', 'a', 't', 'h'] 3 = Except.error PgError.valueError ∧
    _split_uri ['f', 'i', ':', 'l', 'e'] = Except.ok (['f', 'i'], ['l', 'e']) ∧
    remove_location
      { emptyDB with locations :=
          [{ id := 1, dataset_ref := 1, uri_scheme := ['f', 'i'], uri_body := ['l', 'e'],
             added := 0, archived := none }] } 1 ['f', 'i', ':', 'l', 'e'] =
      Except.ok (true, emptyDB) := by
  have hbad := (c9_location_mutations_keyed_on_split_uri ['p', 'a', 't', 'h']).1 (by decide)
  have hgood := (c9_location_mutations_keyed_on_split_uri ['f', 'i', ':', 'l', 'e']).2
    ['f', 'i'] ['l', 'e'] rfl (by decide)
  refine ⟨hbad.2.2.1 emptyDB 1, hbad.2.2.2.1 emptyDB 1 3, hgood.1, ?_⟩
  rw [hgood.2.2.1
    { emptyDB with locations :=
        [{ id := 1, dataset_ref := 1, uri_scheme := ['f', 'i'], uri_body := ['l', 'e'],
           added := 0, archived := none }] } 1]
  rfl

/-- C7: `update_product` with `update_metadata_type=True` raises
`RuntimeError` when the connection is not inside a transaction, before
re-pointing any datasets (the connection's datasets are untouched); when a
transaction is active, it re-points the `metadata_type_ref` of every
dataset of the updated product within that same connection state and
returns the product id together with the builder call. -/
theorem c7_update_product_requires_transaction (st : ConnState) (name : Nat)
    (metadata : Doc) (metadata_type_id : Nat) (fields : List DynField)
    (defn : Definition) (concurrently : Bool) (p : ProductRow)
    (hp : (st.db.products.filter fun q => decide (q.name = name)).head? = some p) :
    (st.in_transaction = false →
      (update_product st name metadata metadata_type_id fields defn true concurrently).1 =
        Except.error PgError.runtimeError ∧
      (update_product st name metadata metadata_type_id fields defn true concurrently).2.datasets =
        st.db.datasets) ∧
    (st.in_transaction = true →
      (update_product st name metadata metadata_type_id fields defn true concurrently).1 =
        Except.ok (p.id,
          _setup_product_fields p.id name fields defn.metadata false true concurrently) ∧
      (update_product st name metadata metadata_type_id fields defn true concurrently).2.datasets =
        st.db.datasets.map fun d =>
          if d.product_ref = p.id then { d with metadata_type_ref := some metadata_type_id }
          else d) := by
  constructor
  · intro htx
    simp [update_product, hp, htx]
  · intro htx
    simp [update_product, hp, htx]

/-- C7 witness: a one-product, one-dataset database; outside a transaction
the call fails leaving the dataset untouched, inside one it re-points the
dataset. -/
theorem c7_update_product_requires_transaction_witness :
    ((update_product
        { db := { emptyDB with
            products := [{ id := 2, name := 4, metadata_type_ref := 1, metadata := 0,
                           defn := { metadata := 0, rest := 0 } }],
            datasets := [{ id := 5, product_ref := 2, metadata_type_ref := some 1,
                           metadata := 0, added := 0, added_by := 0, archived := none }] },
          in_transaction := false }
        4 0 8 [] { metadata := 0, rest := 0 } true false).1 =
      Except.error PgError.runtimeError ∧
    (update_product
        { db := { emptyDB with
            products := [{ id := 2, name := 4, metadata_type_ref := 1, metadata := 0,
                           defn := { metadata := 0, rest := 0 } }],
            datasets := [{ id := 5, product_ref := 2, metadata_type_ref := some 1,
                           metadata := 0, added := 0, added_by := 0, archived := none }] },
          in_transaction := false }
        4 0 8 [] { metadata := 0, rest := 0 } true false).2.datasets =
      [{ id := 5, product_ref := 2, metadata_type_ref := some 1,
         metadata := 0, added := 0, added_by := 0, archived := none }]) ∧
    (update_product
        { db := { emptyDB with
            products := [{ id := 2, name := 4, metadata_type_ref := 1, metadata := 0,
                           defn := { metadata := 0, rest := 0 } }],
            datasets := [{ id := 5, product_ref := 2, metadata_type_ref := some 1,
                           metadata := 0, added := 0, added_by := 0, archived := none }] },
          in_transaction := true }
        4 0 8 [] { metadata := 0, rest := 0 } true false).2.datasets =
      [{ id := 5, product_ref := 2, metadata_type_ref := some 8,
         metadata := 0, added := 0, added_by := 0, archived := none }] := by
  refine ⟨?_, ?_⟩
  · have h := (c7_update_product_requires_transaction
      { db := { emptyDB with
          products := [{ id := 2, name := 4, metadata_type_ref := 1, metadata := 0,
                         defn := { metadata := 0, rest := 0 } }],
          datasets := [{ id := 5, product_ref := 2, metadata_type_ref := some 1,
                         metadata := 0, added := 0, added_by := 0, archived := none }] },
        in_transaction := false }
      4 0 8 [] { metadata := 0, rest := 0 } false
      { id := 2, name := 4, metadata_type_ref := 1, metadata := 0,
        defn := { metadata := 0, rest := 0 } } rfl).1 rfl
    exact ⟨h.1, h.2⟩
  · have h := (c7_update_product_requires_transaction
      { db := { emptyDB with
          products := [{ id := 2, name := 4, metadata_type_ref := 1, metadata := 0,
                         defn := { metadata := 0, rest := 0 } }],
          datasets := [{ id := 5, product_ref := 2, metadata_type_ref := some 1,
                         metadata := 0, added := 0, added_by := 0, archived := none }] },
        in_transaction := true }
      4 0 8 [] { metadata := 0, rest := 0 } false
      { id := 2, name := 4, metadata_type_ref := 1, metadata := 0,
        defn := { metadata := 0, rest := 0 } } rfl).2 rfl
    rw [h.2]
    rfl

/-- When every expression is anchored on the Dataset relation, the search
query joins no table. -/
theorem join_tables_nil_of_dataset_only (expressions : List PgExpression)
    (h : ∀ e ∈ expressions, requiredRel e = Rel.dataset) :
    _join_tables Rel.dataset expressions [] = [] := by
  have hany : ∀ r : Rel, r ≠ Rel.dataset →
      (expressions.any fun e => decide (requiredRel e = r)) = false := by
    intro r hrne
    simp only [List.any_eq_false, decide_eq_true_eq]
    intro e he heq
    exact hrne ((h e he).symm.trans heq).symm
  have hl := hany Rel.datasetLocation (by simp)
  have hp := hany Rel.product (by simp)
  have hm := hany Rel.metadataType (by simp)
  simp [_join_tables, sort_order_hack, hl, hp, hm]

/-- When every expression is anchored on the Dataset relation, the count
query's WHERE clause drags no extra relation into its FROM list. -/
theorem countFroms_nil_of_dataset_only (expressions : List PgExpression)
    (h : ∀ e ∈ expressions, requiredRel e = Rel.dataset) :
    countFroms expressions = [] := by
  have hany : ∀ r : Rel, r ≠ Rel.dataset →
      (expressions.any fun e => decide (requiredRel e = r)) = false := by
    intro r hrne
    simp only [List.any_eq_false, decide_eq_true_eq]
    intro e he heq
    exact hrne ((h e he).symm.trans heq).symm
  have hl := hany Rel.datasetLocation (by simp)
  have hp := hany Rel.product (by simp)
  have hm := hany Rel.metadataType (by simp)
  simp [countFroms, hl, hp, hm]

/-- C1 (amended): `count_datasets` builds the same
`archived IS NULL AND conjunction-of-expressions` filter as search but
performs no join construction; whenever every supplied expression is
anchored on the Dataset relation it returns exactly the number of rows
`search_datasets` (same expressions, no select fields, no limit) returns. -/
theorem c1_count_matches_search_on_dataset_exprs (db : DB)
    (expressions : List PgExpression)
    (h : ∀ e ∈ expressions, requiredRel e = Rel.dataset) :
    count_datasets db expressions = search_row_count db expressions := by
  have h1 := join_tables_nil_of_dataset_only expressions h
  have h2 := countFroms_nil_of_dataset_only expressions h
  simp [search_row_count, search_datasets, search_datasets_query, Except.map,
    count_datasets, runQuery, applyJoins, h1, h2]

/-- C1 witness: a Dataset-anchored metadata predicate on a two-dataset
database: count and search row count agree. -/
theorem c1_count_matches_search_on_dataset_exprs_witness :
    count_datasets
      { emptyDB with datasets :=
          [{ id := 1, product_ref := 1, metadata_type_ref := some 1, metadata := 0,
             added := 0, added_by := 0, archived := none },
           { id := 2, product_ref := 1, metadata_type_ref := some 1, metadata := 3,
             added := 0, added_by := 0, archived := none }] }
      [{ field := { name := 0, required_alchemy_table := Rel.dataset },
         pred := fun jr => decide (jr.ds.metadata = 0) }] =
    search_row_count
      { emptyDB with datasets :=
          [{ id := 1, product_ref := 1, metadata_type_ref := some 1, metadata := 0,
             added := 0, added_by := 0, archived := none },
           { id := 2, product_ref := 1, metadata_type_ref := some 1, metadata := 3,
             added := 0, added_by := 0, archived := none }] }
      [{ field := { name := 0, required_alchemy_table := Rel.dataset },
         pred := fun jr => decide (jr.ds.metadata = 0) }] :=
  c1_count_matches_search_on_dataset_exprs _ _ (by
    intro e he
    simp only [List.mem_cons, List.not_mem_nil, or_false] at he
    subst he
    rfl)

/-- C1 counterexample database: one active dataset with a `file`-scheme
location and one active dataset with no location. -/
def c1CounterDB : DB :=
  { emptyDB with
    datasets :=
      [{ id := 1, product_ref := 1, metadata_type_ref := some 1, metadata := 0,
         added := 0, added_by := 0, archived := none },
       { id := 2, product_ref := 1, metadata_type_ref := some 1, metadata := 0,
         added := 0, added_by := 0, archived := none }],
    locations :=
      [{ id := 1, dataset_ref := 1, uri_scheme := ['f'], uri_body := ['x'],
         added := 0, archived := none }] }

/-- C1 counterexample expression: a predicate on the location's scheme,
anchored on the DatasetLocation relation (the `uri` native field's
`required_alchemy_table`). -/
def c1CounterExpr : PgExpression :=
  { field := { name := 0, required_alchemy_table := Rel.datasetLocation }
    pred := fun jr =>
      match jr.loc with
      | some l => decide (l.uri_scheme = ['f'])
      | none => false }

/-- C1 counterexample: with a DatasetLocation-anchored expression, search
joins the location table on `dataset_ref = id` and returns 1 row, while
`count_datasets`, which builds no join, counts over the implicit cartesian
product and returns 2: the counts differ, so count does not build the same
join construction as search. -/
theorem c1_count_vs_search_counterexample :
    count_datasets c1CounterDB [c1CounterExpr] = 2 ∧
    search_row_count c1CounterDB [c1CounterExpr] = 1 ∧
    count_datasets c1CounterDB [c1CounterExpr] ≠
      search_row_count c1CounterDB [c1CounterExpr] := by
  refine ⟨rfl, rfl, ?_⟩
  intro hcontra
  rw [show count_datasets c1CounterDB [c1CounterExpr] = 2 from rfl,
    show search_row_count c1CounterDB [c1CounterExpr] = 1 from rfl] at hcontra
  cases hcontra

/-- Zipping the image of a `range'` with its own tail pairs each element
with its successor. -/
theorem map_range_zip_tail (f : Nat → Nat) : ∀ (n s : Nat),
    (((List.range' s (n + 1)).map f).zip (((List.range' s (n + 1)).map f).tail)) =
      (List.range' s n).map fun i => (f i, f (i + 1))
  | 0, s => by simp [List.range']
  | n + 1, s => by
      have ih := map_range_zip_tail f n (s + 1)
      rw [List.range'_succ s (n + 1) 1, List.map_cons, List.tail_cons]
      conv_rhs => rw [List.range'_succ s n 1]
      rw [List.map_cons]
      rw [List.range'_succ (s + 1) n 1, List.map_cons] at ih ⊢
      rw [List.tail_cons] at ih
      rw [List.zip_cons_cons]
      rw [ih]

/-- The buckets built by `count_datasets_through_time_query` are exactly
the `(stop - start) / period` consecutive width-`period` half-open
intervals starting at `start` (the trailing open-ended range having been
filtered out). -/
theorem time_buckets_closed_form (start stop period : Nat) (hp : 0 < period) :
    time_buckets start stop period =
      (List.range ((stop - start) / period)).map fun i =>
        (start + i * period, start + (i + 1) * period) := by
  unfold time_buckets generate_series
  rw [if_neg hp.ne']
  by_cases he : stop < start
  · rw [if_pos he]
    have h0 : stop - start = 0 := Nat.sub_eq_zero_of_le he.le
    simp [h0]
  · rw [if_neg he]
    rw [List.range_eq_range' ((stop - start) / period + 1),
      List.range_eq_range' ((stop - start) / period)]
    exact map_range_zip_tail (fun i => start + i * period) ((stop - start) / period) 0

/-- C3: `count_datasets_through_time` partitions `[start, stop]` into
contiguous half-open period-wide buckets starting at `start`, excludes the
final open-ended bucket, and yields per remaining bucket a pair of the
bucket and a count equal to the direct count under the same
archived-IS-NULL/expression filter conjoined with the time field
overlapping that bucket; for `stop = start + 7·period` exactly 7 buckets
covering `[start, start + 7·period)` are returned and no 8th appears. -/
theorem c3_count_through_time_buckets (db : DB) (start stop period : Nat)
    (time_field : DatasetRow → Nat × Nat) (expressions : List PgExpression)
    (hp : 0 < period) :
    count_datasets_through_time db start stop period time_field expressions =
      (List.range ((stop - start) / period)).map (fun i =>
        ((start + i * period, start + (i + 1) * period),
          directBucketCount db time_field expressions
            (start + i * period) (start + (i + 1) * period))) ∧
    (stop = start + 7 * period →
      (count_datasets_through_time db start stop period time_field expressions).length = 7) := by
  have hmain : count_datasets_through_time db start stop period time_field expressions =
      (List.range ((stop - start) / period)).map (fun i =>
        ((start + i * period, start + (i + 1) * period),
          directBucketCount db time_field expressions
            (start + i * period) (start + (i + 1) * period))) := by
    unfold count_datasets_through_time
    rw [time_buckets_closed_form start stop period hp, List.map_map]
    apply List.map_congr_left
    intro i _
    simp only [Function.comp_apply]
    unfold directBucketCount
    congr 1
    refine congrArg List.length (List.filter_congr ?_)
    intro jr _
    exact Bool.and_comm _ _
  refine ⟨hmain, fun hstop => ?_⟩
  rw [hmain, List.length_map, List.length_range, hstop, Nat.add_sub_cancel_left,
    Nat.mul_div_cancel 7 hp]

/-- C3 witness: seven one-unit buckets over `[0, 7]`, with the cross-check
equality and the exact bucket count. -/
theorem c3_count_through_time_buckets_witness :
    (0 : Nat) < 1 ∧
    count_datasets_through_time emptyDB 0 7 1 (fun _ => (0, 0)) [] =
      (List.range ((7 - 0) / 1)).map (fun i =>
        ((0 + i * 1, 0 + (i + 1) * 1),
          directBucketCount emptyDB (fun _ => (0, 0)) [] (0 + i * 1) (0 + (i + 1) * 1))) ∧
    (count_datasets_through_time emptyDB 0 7 1 (fun _ => (0, 0)) []).length = 7 :=
  ⟨Nat.zero_lt_one,
    (c3_count_through_time_buckets emptyDB 0 7 1 (fun _ => (0, 0)) [] Nat.zero_lt_one).1,
    (c3_count_through_time_buckets emptyDB 0 7 1 (fun _ => (0, 0)) [] Nat.zero_lt_one).2 rfl⟩

end Datacube
